import Mathlib

/-
Verification of the Janus reverse proxy core (janus-server / janus-common).

The Rust sources are shallowly embedded: configuration structs from
janus-common/src/config.rs become Lean structures (u16/u64/u32 become Nat;
HashMap becomes an association list), the route matcher and request handler
from janus-server/src/server.rs, the backend selector and forwarder from
janus-server/src/proxy.rs, the validator and reload loop from
janus-server/src/reload.rs, and the control-plane message handler from
janus-server/src/management.rs become Lean functions.  Effects are made
explicit: the filesystem is an oracle argument, the backend transport outcome
is an argument, file persistence is a boolean success flag, wall-clock event
times are Nat milliseconds.
-/

set_option maxHeartbeats 1000000

namespace Janus

/-- Uppercase a string character by character, modelling Rust
`str::to_uppercase` on the ASCII method names compared in `handle_request`. -/
def toUpperStr (s : String) : String := String.mk (s.data.map Char.toUpper)

/-- Rust `str::starts_with`. -/
def strStarts (s pre : String) : Bool := pre.data.isPrefixOf s.data

/-- Rust `str::ends_with`. -/
def strEnds (s suf : String) : Bool := suf.data.isSuffixOf s.data

/-- Remove leading copies of `pat` from a character list, repeatedly; the fuel
argument (instantiated with the list length, which bounds the number of
removals) makes the recursion structural. -/
def stripRepFuel (pat : List Char) : Nat → List Char → List Char
  | 0, s => s
  | fuel + 1, s =>
    if !pat.isEmpty && pat.isPrefixOf s then stripRepFuel pat fuel (s.drop pat.length)
    else s

/-- Rust `str::trim_end_matches`: repeatedly strip the suffix `pat` from `s`
(realised by stripping the reversed pattern from the front of the reversed
string). -/
def trimEnd (s pat : String) : String :=
  String.mk (stripRepFuel pat.data.reverse s.data.length s.data.reverse).reverse

/-- Rust `str::trim_start_matches` for a single character. -/
def trimLeadChar (c : Char) : List Char → List Char
  | [] => []
  | x :: xs => if x = c then trimLeadChar c xs else x :: xs

/-- Rust `str::trim_start_matches('/')` as used on static file paths. -/
def trimLead (c : Char) (s : String) : String := String.mk (trimLeadChar c s.data)

/-- Rust `path.strip_prefix(p).unwrap_or(path)` from the static-file branch of
`handle_request`. -/
def stripPre (pre s : String) : String :=
  if pre.data.isPrefixOf s.data then String.mk (s.data.drop pre.data.length) else s

/-- Rust `std::path::Path::join` restricted to the shapes produced by the
static-file branch: an absolute right operand replaces the root, otherwise the
two are joined with a single separator. -/
def pathJoin (root fp : String) : String :=
  if strStarts fp "/" then fp
  else if strEnds root "/" then root ++ fp
  else root ++ "/" ++ fp

/-! ## Configuration data model (janus-common/src/config.rs) -/

/-- Load balancing strategies (`LoadBalancing` in config.rs).  The source doc
comment promises: round-robin distributes requests sequentially to each
server; ip_hash sends the same client IP to the same server. -/
inductive LoadBalancing
  | RoundRobin
  | LeastConnections
  | Random
  | IpHash
deriving DecidableEq, Repr

/-- Backend server definition (`BackendServer` in config.rs). -/
structure BackendServer where
  address : String
  weight : Nat
  backup : Bool
deriving DecidableEq, Repr

/-- Health check configuration (`HealthCheckConfig` in config.rs). -/
structure HealthCheckConfig where
  interval : Nat
  timeout : Nat
  path : String
deriving DecidableEq, Repr

/-- Upstream pool (`UpstreamConfig` in config.rs). -/
structure UpstreamConfig where
  servers : List BackendServer
  load_balancing : LoadBalancing
  health_check : Option HealthCheckConfig
deriving DecidableEq, Repr

/-- Route definition (`RouteConfig` in config.rs); `headers` is the HashMap
of extra headers, modelled as an association list. -/
structure RouteConfig where
  path : String
  methods : List String
  upstream : String
  rewrite : Option String
  headers : List (String × String)
  timeout : Nat
deriving DecidableEq, Repr

/-- Static file rule (`StaticFileConfig` in config.rs). -/
structure StaticFileConfig where
  path : String
  root : String
  index : String
  directory_listing : Bool
deriving DecidableEq, Repr

/-- Listener settings (`ServerConfig` in config.rs). -/
structure ServerConfig where
  bind_address : String
  port : Nat
  workers : Nat
  access_log : Bool
deriving DecidableEq, Repr

/-- Management channel settings (`ManagementConfig` in config.rs). -/
structure ManagementConfig where
  enabled : Bool
  address : String
  port : Nat
deriving DecidableEq, Repr

/-- Whole configuration (`JanusConfig` in config.rs); the `upstreams`
HashMap is modelled as an association list from upstream name to pool. -/
structure JanusConfig where
  server : ServerConfig
  management : ManagementConfig
  upstreams : List (String × UpstreamConfig)
  routes : List RouteConfig
  static_files : List StaticFileConfig
deriving DecidableEq, Repr

/-- `HashMap::get` on the upstream map: the value at a key, if present. -/
def lookupUp (l : List (String × UpstreamConfig)) (k : String) : Option UpstreamConfig :=
  (l.find? (fun p => p.1 == k)).map (fun p => p.2)

/-- `HashMap::insert` on the upstream map: replace the value at the key if
present, otherwise add the binding. -/
def upsertUp (l : List (String × UpstreamConfig)) (k : String) (v : UpstreamConfig) :
    List (String × UpstreamConfig) :=
  match l with
  | [] => [(k, v)]
  | (k', v') :: rest => if k' == k then (k, v) :: rest else (k', v') :: upsertUp rest k v

/-- `HashMap::remove` on the upstream map (a no-op when the key is absent). -/
def removeUp (l : List (String × UpstreamConfig)) (k : String) :
    List (String × UpstreamConfig) :=
  l.filter (fun p => !(p.1 == k))

/-! ## Router (janus-server/src/server.rs, `matches_route` and the proxy-route
loop of `handle_request`) -/

/-- `matches_route` from server.rs: a pattern ending in a wildcard is a prefix
match on the pattern with the trailing wildcard suffix trimmed off; any other
pattern requires exact string equality. -/
def matchesRoute (path pat : String) : Bool :=
  if strEnds pat "/*" then strStarts path (trimEnd pat "/*")
  else if strEnds pat "*" then strStarts path (trimEnd pat "*")
  else path == pat

/-- The method check of `handle_request`: an empty allow-list admits every
method, otherwise some listed method must equal the request method after
uppercasing both. -/
def methodAllowed (ms : List String) (method : String) : Bool :=
  ms.isEmpty || ms.any (fun m => toUpperStr m == toUpperStr method)

/-- The proxy-route loop of `handle_request`: scan routes in declared order;
a route whose pattern does not match, whose method check fails, or whose
upstream name is absent from the upstream map is skipped and scanning
continues with the later routes. -/
def findProxyRoute (ups : List (String × UpstreamConfig)) :
    List RouteConfig → String → String → Option (RouteConfig × UpstreamConfig)
  | [], _, _ => none
  | r :: rest, method, path =>
    if matchesRoute path r.path then
      if !r.methods.isEmpty && !r.methods.any (fun m => toUpperStr m == toUpperStr method) then
        findProxyRoute ups rest method path
      else
        match lookupUp ups r.upstream with
        | some u => some (r, u)
        | none => findProxyRoute ups rest method path
    else findProxyRoute ups rest method path

/-! ## Backend selector (janus-server/src/proxy.rs, `ProxyHandler::select_backend`)

The handler's `AtomicUsize` counter is threaded explicitly: selection takes the
current counter value and returns the chosen address together with the new
counter value.  The time-seeded index of the `Random` arm is an explicit `seed`
argument.  The client address is not an argument because `select_backend`
takes none: the source ignores `_remote_addr`. -/

def selectBackend (u : UpstreamConfig) (counter seed : Nat) :
    Except String (String × Nat) :=
  let servers := u.servers.filter (fun s => !s.backup)
  if hs : servers = [] then
    match u.servers.filter (fun s => s.backup) with
    | [] => Except.error "No backend servers available"
    | b :: _ => Except.ok (b.address, counter)
  else
    have hlen : 0 < servers.length := List.length_pos.mpr hs
    match u.load_balancing with
    | LoadBalancing.RoundRobin =>
        Except.ok ((servers.get ⟨counter % servers.length, Nat.mod_lt _ hlen⟩).address, counter + 1)
    | LoadBalancing.Random =>
        Except.ok ((servers.get ⟨seed % servers.length, Nat.mod_lt _ hlen⟩).address, counter)
    | LoadBalancing.LeastConnections =>
        Except.ok ((servers.get ⟨counter % servers.length, Nat.mod_lt _ hlen⟩).address, counter + 1)
    | LoadBalancing.IpHash =>
        Except.ok ((servers.get ⟨counter % servers.length, Nat.mod_lt _ hlen⟩).address, counter + 1)

/-- `handle_request` constructs a fresh `ProxyHandler` (and with it a fresh
`AtomicUsize` counter initialised to 0) for every request, so the backend
chosen for each of `n` consecutive requests is the one selected with counter
value 0. -/
def perRequestBackends (u : UpstreamConfig) (seed : Nat) : Nat → List (Except String String)
  | 0 => []
  | n + 1 => (selectBackend u 0 seed).map (fun p => p.1) :: perRequestBackends u seed n

/-! ## Static-file branch of `handle_request` (janus-server/src/server.rs)

The filesystem is an oracle from full paths to what the source observes about
them: `readable` when `is_file()` holds and `tokio::fs::read` succeeds,
`unreadable` when `is_file()` holds but the read fails (the source logs and
falls through), `dirEntry` for a directory, `absent` otherwise. -/

inductive FsEntry
  | readable
  | unreadable
  | dirEntry
  | absent
deriving DecidableEq, Repr

/-- A static rule that served the request: the rule, the resolved filesystem
path, and whether it was served as a directory listing (else as a file). -/
structure StaticHit where
  rule : StaticFileConfig
  fullPath : String
  listing : Bool
deriving DecidableEq, Repr

/-- One iteration of the static-file loop of `handle_request`: the rule's URL
path must be a prefix of the request path; the remainder (or the index file
when the remainder is empty or a bare slash) is joined onto the rule's root;
the request is served if the result is a readable file, or a directory while
directory listing is enabled; in every other case the loop falls through. -/
def resolveStatic (fs : String → FsEntry) (rule : StaticFileConfig) (path : String) :
    Option StaticHit :=
  if strStarts path rule.path then
    let fp0 := stripPre rule.path path
    let fp := if fp0 == "" || fp0 == "/" then rule.index else trimLead '/' fp0
    let full := pathJoin rule.root fp
    match fs full with
    | FsEntry.readable => some ⟨rule, full, false⟩
    | FsEntry.dirEntry => if rule.directory_listing then some ⟨rule, full, true⟩ else none
    | _ => none
  else none

/-- The static-file loop: rules are scanned in declared order; the first rule
that serves the request wins. -/
def staticScan (fs : String → FsEntry) : List StaticFileConfig → String → Option StaticHit
  | [], _ => none
  | r :: rest, path =>
    match resolveStatic fs r path with
    | some h => some h
    | none => staticScan fs rest path

/-! ## Forwarding (janus-server/src/proxy.rs, `ProxyHandler::forward`) -/

/-- Outcome of the network interaction attempted by `forward`, made an explicit
argument of the embedding: the round trip exceeded the route timeout; the
transport failed (connection refused, reset, DNS failure); collecting the
inbound request body failed; collecting the backend response body failed; or
the backend answered with the given status. -/
inductive TransportOutcome
  | timedOut
  | failedTransport
  | reqBodyFailed
  | respBodyFailed
  | backendStatus (status : Nat)
deriving DecidableEq, Repr

/-- `ProxyHandler::forward` observed through the response status: backend
selection runs first and its failure propagates as an error (the `?`), as do
body-collection failures; with a backend selected, a timeout becomes a
synthetic 504 response, any other transport failure a synthetic 502, and a
backend response is passed through with its status.  `handle_request` creates
the handler per request, so the counter is 0. -/
def forwardResult (u : UpstreamConfig) (seed : Nat) (tr : TransportOutcome) :
    Except String Nat :=
  match selectBackend u 0 seed with
  | Except.error e => Except.error e
  | Except.ok _ =>
    match tr with
    | TransportOutcome.reqBodyFailed => Except.error "request body"
    | TransportOutcome.timedOut => Except.ok 504
    | TransportOutcome.failedTransport => Except.ok 502
    | TransportOutcome.respBodyFailed => Except.error "response body"
    | TransportOutcome.backendStatus s => Except.ok s

/-- The proxy branch of `handle_request`: a response from `forward` is passed
through; an error from `forward` becomes a synthetic 502 Bad Gateway. -/
def proxyStatus (u : UpstreamConfig) (seed : Nat) (tr : TransportOutcome) : Nat :=
  match forwardResult u seed tr with
  | Except.ok s => s
  | Except.error _ => 502

/-- The routing outcome of one request: served by a static rule, proxied via a
route (with the resulting status), or 404 Not Found. -/
inductive RequestOutcome
  | staticHit (h : StaticHit)
  | proxied (r : RouteConfig) (status : Nat)
  | notFound
deriving DecidableEq, Repr

/-- `handle_request` (janus-server/src/server.rs) at the routing level: the
config snapshot is read once; static rules are tried first, then proxy routes,
and a request nothing handles gets 404. -/
def handleRequest (fs : String → FsEntry) (tr : TransportOutcome) (seed : Nat)
    (cfg : JanusConfig) (method path : String) : RequestOutcome :=
  match staticScan fs cfg.static_files path with
  | some h => RequestOutcome.staticHit h
  | none =>
    match findProxyRoute cfg.upstreams cfg.routes method path with
    | some (r, u) => RequestOutcome.proxied r (proxyStatus u seed tr)
    | none => RequestOutcome.notFound

/-! ## Validation and reload (janus-server/src/reload.rs) -/

/-- `validate_config` from reload.rs: bail on a zero server port, on a zero
management port while management is enabled, on the first route naming an
unknown upstream, and on the first upstream pool with no servers. -/
def validateConfig (c : JanusConfig) : Except String Unit :=
  if c.server.port == 0 then Except.error "Server port cannot be 0"
  else if c.management.enabled && c.management.port == 0 then
    Except.error "Management port cannot be 0"
  else
    match c.routes.find? (fun r => (lookupUp c.upstreams r.upstream).isNone) with
    | some r =>
      Except.error ("Route '" ++ r.path ++ "' references non-existent upstream '"
        ++ r.upstream ++ "'")
    | none =>
      match c.upstreams.find? (fun p => p.2.servers.isEmpty) with
      | some p => Except.error ("Upstream '" ++ p.1 ++ "' has no servers configured")
      | none => Except.ok ()

/-- `reload_config` from reload.rs: load the file (its parse result is the
`file` argument), validate, and replace the published config only on success;
on any failure the previously published config stays. -/
def reloadConfig (file : Except String JanusConfig) (cfg : JanusConfig) :
    JanusConfig × Except String Unit :=
  match file with
  | Except.error e => (cfg, Except.error e)
  | Except.ok c =>
    match validateConfig c with
    | Except.error e => (cfg, Except.error e)
    | Except.ok _ => (c, Except.ok ())

/-- The debounce loop of `watch_config` (reload.rs): event times in
milliseconds are consumed in order; an event less than 500ms after the last
accepted one is discarded; an accepted event updates the accept time, sleeps
the 100ms settle delay, and then reloads.  The returned list holds the reload
times (accept time plus settle delay). -/
def processEvents (last : Nat) : List Nat → List Nat
  | [] => []
  | t :: ts =>
    if t - last < 500 then processEvents last ts
    else (t + 100) :: processEvents t ts

/-! ## Control plane (janus-server/src/management.rs, `handle_message`)

Only the mutating commands (plus `ReloadConfig`) are embedded; the read-only
commands `GetStatus`, `GetConfig`, `GetStats` and `Shutdown` never write the
store.  `config.save(&state.config_path)` is modelled by a boolean `saveOk`
flag; the origin file's parse result is carried alongside the store so that
persistence can be observed. -/

/-- The mutating subset of `ClientMessage` (janus-common/src/messages.rs). -/
inductive ClientMessage
  | UpdateConfig (c : JanusConfig)
  | AddRoute (r : RouteConfig)
  | RemoveRoute (path : String)
  | UpdateUpstream (name : String) (config : UpstreamConfig)
  | RemoveUpstream (name : String)
  | UpdateServerPort (port : Nat)
  | UpdateBindAddress (address : String)
  | AddStaticDir (s : StaticFileConfig)
  | RemoveStaticDir (path : String)
  | ReloadConfig
deriving DecidableEq, Repr

/-- The replies the mutating commands produce: the `Success` and `Error`
variants of `ServerMessage` (janus-common/src/messages.rs). -/
inductive MgmtReply
  | succeeded (msg : String)
  | failed (msg : String)
deriving DecidableEq, Repr

def MgmtReply.isSuccess : MgmtReply → Bool
  | MgmtReply.succeeded _ => true
  | MgmtReply.failed _ => false

def MgmtReply.isError : MgmtReply → Bool
  | MgmtReply.succeeded _ => false
  | MgmtReply.failed _ => true

deriving instance DecidableEq for Except

/-- State after one control-plane command: the published store, the reply sent
to the client, and the parse result of the origin file on disk. -/
structure HandleResult where
  store : JanusConfig
  reply : MgmtReply
  file : Except String JanusConfig
deriving DecidableEq, Repr

/-- The `config.save` step that every mutating branch of `handle_message` runs
after updating the store: on success the file now holds the new store and a
`Success` is replied; on failure an `Error` is replied while the store keeps
the already-applied mutation. -/
def saveStep (saveOk : Bool) (file : Except String JanusConfig)
    (store : JanusConfig) (okMsg : String) : HandleResult :=
  if saveOk then ⟨store, MgmtReply.succeeded okMsg, Except.ok store⟩
  else ⟨store, MgmtReply.failed "Failed to save config", file⟩

/-- `handle_message` from management.rs, mutating commands.  Each branch is
transcribed from the source: `UpdateConfig` validates only that every route's
upstream exists (via `validate_and_update_config`) before replacing the store;
`AddRoute` checks upstream existence and path uniqueness; `RemoveRoute`
retains and fails when nothing was removed; `UpdateUpstream` inserts with no
validation at all; `RemoveUpstream` refuses while routes reference the name
and fails when absent; the port/address/static-dir commands perform only their
duplicate or missing checks; `ReloadConfig` delegates to `reload_config`. -/
def handleMessage (saveOk : Bool) (file : Except String JanusConfig)
    (cfg : JanusConfig) : ClientMessage → HandleResult
  | ClientMessage.UpdateConfig newCfg =>
    match newCfg.routes.find? (fun r => (lookupUp newCfg.upstreams r.upstream).isNone) with
    | some r =>
      ⟨cfg, MgmtReply.failed ("Route '" ++ r.path ++ "' references non-existent upstream '"
        ++ r.upstream ++ "'"), file⟩
    | none => saveStep saveOk file newCfg "Configuration updated"
  | ClientMessage.AddRoute r =>
    if (lookupUp cfg.upstreams r.upstream).isNone then
      ⟨cfg, MgmtReply.failed ("Upstream '" ++ r.upstream ++ "' not found"), file⟩
    else if cfg.routes.any (fun rt => rt.path == r.path) then
      ⟨cfg, MgmtReply.failed ("Route '" ++ r.path ++ "' already exists"), file⟩
    else
      saveStep saveOk file { cfg with routes := cfg.routes ++ [r] } "Route added"
  | ClientMessage.RemoveRoute p =>
    let rs := cfg.routes.filter (fun rt => !(rt.path == p))
    if rs.length == cfg.routes.length then
      ⟨{ cfg with routes := rs }, MgmtReply.failed ("Route '" ++ p ++ "' not found"), file⟩
    else
      saveStep saveOk file { cfg with routes := rs } "Route removed"
  | ClientMessage.UpdateUpstream name uc =>
    saveStep saveOk file { cfg with upstreams := upsertUp cfg.upstreams name uc }
      ("Upstream '" ++ name ++ "' updated")
  | ClientMessage.RemoveUpstream name =>
    if cfg.routes.any (fun rt => rt.upstream == name) then
      ⟨cfg, MgmtReply.failed ("Cannot remove upstream '" ++ name
        ++ "': still in use by routes"), file⟩
    else
      let m' := removeUp cfg.upstreams name
      if (lookupUp cfg.upstreams name).isNone then
        ⟨{ cfg with upstreams := m' },
          MgmtReply.failed ("Upstream '" ++ name ++ "' not found"), file⟩
      else
        saveStep saveOk file { cfg with upstreams := m' }
          ("Upstream '" ++ name ++ "' removed")
  | ClientMessage.UpdateServerPort port =>
    saveStep saveOk file { cfg with server := { cfg.server with port := port } }
      "Server port changed"
  | ClientMessage.UpdateBindAddress address =>
    saveStep saveOk file { cfg with server := { cfg.server with bind_address := address } }
      "Bind address changed"
  | ClientMessage.AddStaticDir s =>
    if cfg.static_files.any (fun st => st.path == s.path) then
      ⟨cfg, MgmtReply.failed ("Static directory '" ++ s.path ++ "' already exists"), file⟩
    else
      saveStep saveOk file { cfg with static_files := cfg.static_files ++ [s] }
        ("Static directory '" ++ s.path ++ "' added")
  | ClientMessage.RemoveStaticDir p =>
    let ss := cfg.static_files.filter (fun st => !(st.path == p))
    if ss.length == cfg.static_files.length then
      ⟨{ cfg with static_files := ss },
        MgmtReply.failed ("Static directory '" ++ p ++ "' not found"), file⟩
    else
      saveStep saveOk file { cfg with static_files := ss }
        ("Static directory '" ++ p ++ "' removed")
  | ClientMessage.ReloadConfig =>
    match reloadConfig file cfg with
    | (c', Except.ok _) => ⟨c', MgmtReply.succeeded "Configuration reloaded from file", file⟩
    | (c', Except.error e) => ⟨c', MgmtReply.failed ("Failed to reload config: " ++ e), file⟩

/-- The three validation rules of the specification, as a property of a
configuration: nonzero listening port (and nonzero management port when
management is enabled), every route's upstream present in the upstream map,
and every upstream pool non-empty. -/
def ThreeRules (c : JanusConfig) : Prop :=
  c.server.port ≠ 0 ∧
  (c.management.enabled = true → c.management.port ≠ 0) ∧
  (∀ r ∈ c.routes, (lookupUp c.upstreams r.upstream).isSome = true) ∧
  (∀ p ∈ c.upstreams, p.2.servers ≠ [])

/-! ## Helper lemmas -/

theorem filterLengthEq {α : Type} (p : α → Bool) (l : List α)
    (h : (l.filter p).length = l.length) : l.filter p = l := by
  induction l with
  | nil => rfl
  | cons a t ih =>
    by_cases hp : p a = true
    · simp only [List.filter_cons, hp, if_true, List.length_cons, Nat.add_right_cancel_iff] at h
      simp [List.filter_cons, hp, ih h]
    · exfalso
      simp [List.filter_cons, hp] at h
      have hle := List.length_filter_le p t
      omega

theorem removeUp_absent (l : List (String × UpstreamConfig)) (k : String)
    (h : lookupUp l k = none) : removeUp l k = l := by
  unfold lookupUp at h
  have hf : l.find? (fun p => p.1 == k) = none := by
    cases hx : l.find? (fun p => p.1 == k) with
    | none => rfl
    | some p => rw [hx] at h; simp at h
  have hall := List.find?_eq_none.mp hf
  unfold removeUp
  apply List.filter_eq_self.mpr
  intro p hp
  simp only [Bool.not_eq_true']
  exact Bool.not_eq_true _ |>.mp (hall p hp)

theorem servers_nil_of_filters (l : List BackendServer)
    (h1 : l.filter (fun s => !s.backup) = [])
    (h2 : l.filter (fun s => s.backup) = []) : l = [] := by
  cases l with
  | nil => rfl
  | cons a t =>
    exfalso
    by_cases hb : a.backup = true
    · simp [List.filter_cons, hb] at h2
    · simp [List.filter_cons, hb] at h1

theorem selectBackend_primary (u : UpstreamConfig) (counter seed : Nat)
    (h : u.servers.filter (fun s => !s.backup) ≠ []) :
    ∃ s ∈ u.servers.filter (fun s => !s.backup), ∃ c',
      selectBackend u counter seed = Except.ok (s.address, c') := by
  have hlen : 0 < (u.servers.filter (fun s => !s.backup)).length := List.length_pos.mpr h
  unfold selectBackend
  rw [dif_neg h]
  cases u.load_balancing <;>
    exact ⟨_, List.get_mem _ _ _, _, rfl⟩

theorem selectBackend_backup (u : UpstreamConfig) (counter seed : Nat)
    (h : u.servers.filter (fun s => !s.backup) = [])
    (b : BackendServer) (bs : List BackendServer)
    (hb : u.servers.filter (fun s => s.backup) = b :: bs) :
    selectBackend u counter seed = Except.ok (b.address, counter) := by
  unfold selectBackend
  rw [dif_pos h, hb]

theorem selectBackend_noneAvailable (u : UpstreamConfig) (counter seed : Nat)
    (h1 : u.servers.filter (fun s => !s.backup) = [])
    (h2 : u.servers.filter (fun s => s.backup) = []) :
    selectBackend u counter seed = Except.error "No backend servers available" := by
  unfold selectBackend
  rw [dif_pos h1, h2]

theorem selectBackend_isOk (u : UpstreamConfig) (counter seed : Nat)
    (h : u.servers ≠ []) :
    ∃ a c, selectBackend u counter seed = Except.ok (a, c) := by
  by_cases hp : u.servers.filter (fun s => !s.backup) = []
  · cases hb : u.servers.filter (fun s => s.backup) with
    | nil => exact absurd (servers_nil_of_filters _ hp hb) h
    | cons b bs => exact ⟨b.address, counter, selectBackend_backup u counter seed hp b bs hb⟩
  · obtain ⟨s, _, c, hc⟩ := selectBackend_primary u counter seed hp
    exact ⟨s.address, c, hc⟩

theorem methodAllowed_eq (ms : List String) (method : String) :
    methodAllowed ms method =
      !(!ms.isEmpty && !ms.any (fun m => toUpperStr m == toUpperStr method)) := by
  unfold methodAllowed
  cases h1 : ms.isEmpty <;>
    cases h2 : ms.any (fun m => toUpperStr m == toUpperStr method) <;> rfl

theorem validateConfig_ok (c : JanusConfig) (h : validateConfig c = Except.ok ()) :
    ThreeRules c := by
  unfold validateConfig at h
  by_cases h1 : (c.server.port == 0) = true
  · rw [if_pos h1] at h; exact absurd h (by simp)
  · rw [if_neg h1] at h
    by_cases h2 : (c.management.enabled && c.management.port == 0) = true
    · rw [if_pos h2] at h; exact absurd h (by simp)
    · rw [if_neg h2] at h
      cases hf : c.routes.find? (fun r => (lookupUp c.upstreams r.upstream).isNone) with
      | some r => rw [hf] at h; exact absurd h (by simp)
      | none =>
        rw [hf] at h
        cases hg : c.upstreams.find? (fun p => p.2.servers.isEmpty) with
        | some p => rw [hg] at h; exact absurd h (by simp)
        | none =>
          refine ⟨?_, ?_, ?_, ?_⟩
          · intro hp; exact h1 (by simp [hp])
          · intro he hp; exact h2 (by simp [he, hp])
          · intro r hr
            have := List.find?_eq_none.mp hf r hr
            cases ho : lookupUp c.upstreams r.upstream <;> simp_all
          · intro p hp
            have := List.find?_eq_none.mp hg p hp
            simp_all [List.isEmpty_iff]

theorem saveStep_persist (saveOk : Bool) (file : Except String JanusConfig)
    (store : JanusConfig) (m : String)
    (h : ((saveStep saveOk file store m).reply).isSuccess = true) :
    (saveStep saveOk file store m).file = Except.ok (saveStep saveOk file store m).store := by
  cases saveOk <;> simp_all [saveStep, MgmtReply.isSuccess]

theorem saveStep_true_noError (file : Except String JanusConfig)
    (store : JanusConfig) (m : String) :
    ((saveStep true file store m).reply).isError = false := rfl

/-! ## Demonstration fixtures used by witnesses and counterexamples -/

def demoPool : UpstreamConfig := ⟨[⟨"A", 1, false⟩], LoadBalancing.RoundRobin, none⟩

def poolRR : UpstreamConfig :=
  ⟨[⟨"A", 1, false⟩, ⟨"B", 1, false⟩], LoadBalancing.RoundRobin, none⟩

def poolIpHash : UpstreamConfig :=
  ⟨[⟨"A", 1, false⟩, ⟨"B", 1, false⟩], LoadBalancing.IpHash, none⟩

def poolMix : UpstreamConfig :=
  ⟨[⟨"A", 1, false⟩, ⟨"C", 1, true⟩], LoadBalancing.RoundRobin, none⟩

def emptyPool : UpstreamConfig := ⟨[], LoadBalancing.RoundRobin, none⟩

def demoUps : List (String × UpstreamConfig) := [("u0", demoPool)]

def demoRouteA : RouteConfig := ⟨"/api/*", [], "u0", none, [], 60⟩

def demoRouteB : RouteConfig := ⟨"/api/v1/*", [], "u0", none, [], 60⟩

def ghostRoute : RouteConfig := ⟨"/api/*", [], "ghost", none, [], 60⟩

def addRoute0 : RouteConfig := ⟨"/r", [], "u0", none, [], 60⟩

def cfg0 : JanusConfig :=
  ⟨⟨"0.0.0.0", 8080, 0, true⟩, ⟨true, "127.0.0.1", 9090⟩, [("u0", demoPool)], [], []⟩

def staticRule5 : StaticFileConfig := ⟨"/s", "/www", "index.html", false⟩

def route5 : RouteConfig := ⟨"/*", [], "u0", none, [], 60⟩

def cfg5 : JanusConfig :=
  ⟨⟨"0.0.0.0", 8080, 0, true⟩, ⟨true, "127.0.0.1", 9090⟩, [("u0", demoPool)],
    [route5], [staticRule5]⟩

/-- A filesystem oracle in which exactly the file /www/x exists and is
readable. -/
def fsDemo : String → FsEntry :=
  fun p => if p == "/www/x" then FsEntry.readable else FsEntry.absent

/-! ## Claim theorems -/

/-- C7: `select_backend` partitions the pool into primary (`backup = false`)
and backup backends.  With at least one primary, the selection returns the
address of a primary member of the pool; with no primaries and at least one
backup, it returns the first backup's address and leaves the counter
untouched; with neither, it fails with "No backend servers available". -/
theorem selection_partitions (u : UpstreamConfig) (counter seed : Nat) :
    (u.servers.filter (fun s => !s.backup) ≠ [] →
      ∃ s ∈ u.servers, s.backup = false ∧ ∃ c',
        selectBackend u counter seed = Except.ok (s.address, c')) ∧
    (∀ b bs, u.servers.filter (fun s => !s.backup) = [] →
      u.servers.filter (fun s => s.backup) = b :: bs →
      selectBackend u counter seed = Except.ok (b.address, counter)) ∧
    (u.servers.filter (fun s => !s.backup) = [] →
      u.servers.filter (fun s => s.backup) = [] →
      selectBackend u counter seed = Except.error "No backend servers available") := by
  refine ⟨?_, ?_, ?_⟩
  · intro h
    obtain ⟨s, hs, c', hc⟩ := selectBackend_primary u counter seed h
    have hmem := List.mem_filter.mp hs
    exact ⟨s, hmem.1, by simpa using hmem.2, c', hc⟩
  · intro b bs h hb
    exact selectBackend_backup u counter seed h b bs hb
  · intro h1 h2
    exact selectBackend_noneAvailable u counter seed h1 h2

theorem selection_partitions_witness :
    ∃ s ∈ poolMix.servers, s.backup = false ∧ ∃ c',
      selectBackend poolMix 0 0 = Except.ok (s.address, c') :=
  (selection_partitions poolMix 0 0).1 (by decide)

/-- C8: when some backend is available, the per-route timeout's expiry is
mapped to a synthetic 504, every other transport failure to a synthetic 502
(body-collection failures via the error branch of `handle_request`), and a
backend response's status is passed through; when no backend is available the
request gets a synthetic 502 and the forwarding result does not depend on the
transport at all, i.e. it is decided before any network I/O.  The timeout
duration itself (`Duration::from_secs(route.timeout)`) is real time and is
modelled as the `timedOut` transport event. -/
theorem proxy_error_statuses (u : UpstreamConfig) (seed s : Nat) :
    (u.servers ≠ [] →
      proxyStatus u seed TransportOutcome.timedOut = 504 ∧
      proxyStatus u seed TransportOutcome.failedTransport = 502 ∧
      proxyStatus u seed TransportOutcome.reqBodyFailed = 502 ∧
      proxyStatus u seed TransportOutcome.respBodyFailed = 502 ∧
      proxyStatus u seed (TransportOutcome.backendStatus s) = s) ∧
    (u.servers = [] → ∀ tr tr',
      proxyStatus u seed tr = 502 ∧
      forwardResult u seed tr = forwardResult u seed tr') := by
  constructor
  · intro h
    obtain ⟨a, c, hc⟩ := selectBackend_isOk u 0 seed h
    refine ⟨?_, ?_, ?_, ?_, ?_⟩ <;> simp [proxyStatus, forwardResult, hc]
  · intro h tr tr'
    have h1 : u.servers.filter (fun s => !s.backup) = [] := by rw [h]; rfl
    have h2 : u.servers.filter (fun s => s.backup) = [] := by rw [h]; rfl
    have hsel := selectBackend_noneAvailable u 0 seed h1 h2
    constructor
    · simp [proxyStatus, forwardResult, hsel]
    · simp [forwardResult, hsel]

theorem proxy_error_statuses_witness :
    proxyStatus demoPool 0 TransportOutcome.timedOut = 504 ∧
    proxyStatus demoPool 0 TransportOutcome.failedTransport = 502 ∧
    proxyStatus demoPool 0 TransportOutcome.reqBodyFailed = 502 ∧
    proxyStatus demoPool 0 TransportOutcome.respBodyFailed = 502 ∧
    proxyStatus demoPool 0 (TransportOutcome.backendStatus 200) = 200 :=
  (proxy_error_statuses demoPool 0 200).1 (by decide)

/-- C3: the claim fails on the code.  `handle_request` constructs a fresh
`ProxyHandler` — and with it a fresh round-robin counter starting at 0 — for
every request, so the counter does not persist across requests: with two
primaries A, B under RoundRobin, three sequential requests all select A
instead of the claimed A, B, A.  Within a single handler the counter logic
itself does cycle A, B, A, which matches the intent documented on the
`LoadBalancing::RoundRobin` variant ("requests are distributed sequentially
to each server") and shows the slip is the per-request handler construction. -/
theorem roundRobin_counter_reset :
    perRequestBackends poolRR 0 3 = [Except.ok "A", Except.ok "A", Except.ok "A"] ∧
    perRequestBackends poolRR 0 3 ≠ [Except.ok "A", Except.ok "B", Except.ok "A"] ∧
    selectBackend poolRR 0 0 = Except.ok ("A", 1) ∧
    selectBackend poolRR 1 0 = Except.ok ("B", 2) ∧
    selectBackend poolRR 2 0 = Except.ok ("A", 3) := by decide

/-- C6: the claim fails on the code.  The `IpHash` arm of `select_backend` is
the round-robin fallback: it never reads the client IP (`select_backend`
takes no address argument and `forward` ignores `_remote_addr`) and it
advances the shared counter, so two successive selections from an unchanged
two-primary pool — necessarily the same (client IP, primary-set) pair — yield
different backends, refuting the claimed hash-based determinism. -/
theorem ipHash_ignores_client_ip :
    selectBackend poolIpHash 0 0 = Except.ok ("A", 1) ∧
    selectBackend poolIpHash 1 0 = Except.ok ("B", 2) := by decide

/-- C1: over every configuration satisfying the published-config invariant
that each route's upstream exists (which every validated snapshot satisfies),
the proxy-route scan returns exactly the first route, in declared order, whose
pattern matches the path and whose method allow-list is empty or contains the
request method case-insensitively — so with overlapping patterns the
earlier-declared route wins regardless of specificity.  The remaining
conjuncts pin the pattern semantics of `matches_route`: a trailing-wildcard
pattern is a prefix match on the pattern with the trailing wildcard suffix
trimmed off, and a pattern with no trailing wildcard requires exact string
equality. -/
theorem router_first_match :
    (∀ ups routes method path,
      (∀ r ∈ routes, (lookupUp ups r.upstream).isSome = true) →
      (findProxyRoute ups routes method path).map Prod.fst =
        routes.find? (fun r => matchesRoute path r.path && methodAllowed r.methods method)) ∧
    (∀ path pat, strEnds pat "/*" = true →
      matchesRoute path pat = strStarts path (trimEnd pat "/*")) ∧
    (∀ path pat, strEnds pat "/*" = false → strEnds pat "*" = true →
      matchesRoute path pat = strStarts path (trimEnd pat "*")) ∧
    (∀ path pat, strEnds pat "/*" = false → strEnds pat "*" = false →
      matchesRoute path pat = (path == pat)) := by
  refine ⟨?_, ?_, ?_, ?_⟩
  · intro ups routes method path h
    induction routes with
    | nil => rfl
    | cons r rest ih =>
      have hr := h r (List.mem_cons_self r rest)
      have hrest : ∀ x ∈ rest, (lookupUp ups x.upstream).isSome = true :=
        fun x hx => h x (List.mem_cons_of_mem r hx)
      obtain ⟨u, hu⟩ := Option.isSome_iff_exists.mp hr
      cases hm : matchesRoute path r.path with
      | false =>
        simp only [findProxyRoute, List.find?, hm, Bool.false_eq_true, if_false,
          Bool.false_and]
        exact ih hrest
      | true =>
        cases hok : (!r.methods.isEmpty &&
            !r.methods.any (fun m => toUpperStr m == toUpperStr method)) with
        | true =>
          have hma : methodAllowed r.methods method = false := by
            rw [methodAllowed_eq, hok]; rfl
          simp only [findProxyRoute, List.find?, hm, if_true, hok, hma,
            Bool.true_and]
          exact ih hrest
        | false =>
          have hma : methodAllowed r.methods method = true := by
            rw [methodAllowed_eq, hok]; rfl
          simp only [findProxyRoute, List.find?, hm, if_true, hok, hma,
            Bool.true_and, Bool.false_eq_true, if_false, hu]
          rfl
  · intro path pat h
    unfold matchesRoute
    rw [if_pos h]
  · intro path pat h1 h2
    unfold matchesRoute
    rw [if_neg (by simp [h1]), if_pos h2]
  · intro path pat h1 h2
    unfold matchesRoute
    rw [if_neg (by simp [h1]), if_neg (by simp [h2])]

theorem router_first_match_witness :
    (findProxyRoute demoUps [demoRouteA, demoRouteB] "GET" "/api/v1/x").map Prod.fst =
      [demoRouteA, demoRouteB].find?
        (fun r => matchesRoute "/api/v1/x" r.path && methodAllowed r.methods "GET") ∧
    (findProxyRoute demoUps [demoRouteA, demoRouteB] "GET" "/api/v1/x").map Prod.fst =
      some demoRouteA := by
  refine ⟨router_first_match.1 demoUps [demoRouteA, demoRouteB] "GET" "/api/v1/x" ?_, ?_⟩
  · decide
  · decide

/-- C10: a route whose pattern and method both match but whose upstream name
is absent from the upstream map does not fail the request: the scan skips it
and continues with the later routes in declared order, and the handler
returns 404 only when no static rule and no proxy route handles the
request. -/
theorem missing_upstream_skipped :
    (∀ ups (r : RouteConfig) rest method path,
      matchesRoute path r.path = true →
      methodAllowed r.methods method = true →
      lookupUp ups r.upstream = none →
      findProxyRoute ups (r :: rest) method path = findProxyRoute ups rest method path) ∧
    (∀ fs tr seed cfg method path,
      staticScan fs cfg.static_files path = none →
      findProxyRoute cfg.upstreams cfg.routes method path = none →
      handleRequest fs tr seed cfg method path = RequestOutcome.notFound) := by
  constructor
  · intro ups r rest method path hm hma hup
    have hok : (!r.methods.isEmpty &&
        !r.methods.any (fun m => toUpperStr m == toUpperStr method)) = false := by
      have := methodAllowed_eq r.methods method
      rw [hma] at this
      cases h : (!r.methods.isEmpty &&
          !r.methods.any (fun m => toUpperStr m == toUpperStr method))
      · rfl
      · rw [h] at this; exact absurd this.symm (by simp)
    simp only [findProxyRoute, hm, if_true, hok, Bool.false_eq_true, if_false, hup]
  · intro fs tr seed cfg method path h1 h2
    unfold handleRequest
    rw [h1, h2]

theorem missing_upstream_skipped_witness :
    findProxyRoute demoUps [ghostRoute, demoRouteA] "GET" "/api/x" =
      findProxyRoute demoUps [demoRouteA] "GET" "/api/x" ∧
    findProxyRoute demoUps [ghostRoute, demoRouteA] "GET" "/api/x" =
      some (demoRouteA, demoPool) := by
  refine ⟨missing_upstream_skipped.1 demoUps ghostRoute [demoRouteA] "GET" "/api/x"
    (by decide) (by decide) (by decide), ?_⟩
  decide

/-- C5 counterexample: the claim fails on the code.  Request path "/s/x"
starts with the URL prefix "/s" of the (only, hence first) static rule of
`cfg5`, yet with the resolved file absent from the filesystem the static loop
falls through and the request is handled by the proxy route "/*" — a proxy
route is consulted even though a static rule's prefix matched. -/
theorem static_precedence_cex :
    strStarts "/s/x" staticRule5.path = true ∧
    handleRequest (fun _ => FsEntry.absent) (TransportOutcome.backendStatus 200) 0
      cfg5 "GET" "/s/x" = RequestOutcome.proxied route5 200 := by decide

/-- C5 amended: static rules take precedence over proxy routes only when they
resolve: if the static scan (first rule, in declared order, whose URL prefix
matches the path and whose resolved filesystem path is a readable file or a
listable directory) produces a hit, that rule handles the request and no
proxy route is consulted — the outcome is the same for every route list;
a prefix-matching rule that does not resolve is skipped. -/
theorem static_precedence (fs : String → FsEntry) (tr : TransportOutcome) (seed : Nat)
    (cfg : JanusConfig) (method path : String) (h : StaticHit)
    (hscan : staticScan fs cfg.static_files path = some h) :
    handleRequest fs tr seed cfg method path = RequestOutcome.staticHit h ∧
    ∀ routes2, handleRequest fs tr seed { cfg with routes := routes2 } method path =
      RequestOutcome.staticHit h := by
  constructor
  · unfold handleRequest
    rw [hscan]
  · intro routes2
    unfold handleRequest
    rw [show ({ cfg with routes := routes2 } : JanusConfig).static_files =
      cfg.static_files from rfl, hscan]

theorem static_precedence_witness :
    handleRequest fsDemo (TransportOutcome.backendStatus 200) 0 cfg5 "GET" "/s/x" =
      RequestOutcome.staticHit ⟨staticRule5, "/www/x", false⟩ :=
  (static_precedence fsDemo (TransportOutcome.backendStatus 200) 0 cfg5 "GET" "/s/x"
    ⟨staticRule5, "/www/x", false⟩ (by decide)).1

/-- C2 counterexample: the claim fails on the code.  The control-plane
upstream-upsert command applies no validation at all: upserting a pool with an
empty server list into the valid configuration `cfg0` succeeds (and is
persisted), publishing a configuration that violates the pool-non-emptiness
rule. -/
theorem uniform_validation_cex :
    ((handleMessage true (Except.ok cfg0) cfg0
      (ClientMessage.UpdateUpstream "bad" emptyPool)).reply).isSuccess = true ∧
    ("bad", emptyPool) ∈ (handleMessage true (Except.ok cfg0) cfg0
      (ClientMessage.UpdateUpstream "bad" emptyPool)).store.upstreams ∧
    emptyPool.servers = [] := by decide

/-- C2 amended: only the file-reload path applies all three validation rules
before the store is written — `validate_config` passing implies all three
rules, and a successful reload publishes only a validated file.  The
control-plane full-config replace checks only that every route's upstream
exists, and the upstream upsert performs no validation whatsoever (it
unconditionally inserts and reports success), so a published configuration
may violate the port and pool-non-emptiness rules. -/
theorem validation_per_writer :
    (∀ c, validateConfig c = Except.ok () → ThreeRules c) ∧
    (∀ saveOk file cfg,
      ((handleMessage saveOk file cfg ClientMessage.ReloadConfig).reply).isSuccess = true →
      ThreeRules (handleMessage saveOk file cfg ClientMessage.ReloadConfig).store) ∧
    (∀ file cfg newCfg,
      ((handleMessage true file cfg (ClientMessage.UpdateConfig newCfg)).reply).isSuccess
        = true →
      (handleMessage true file cfg (ClientMessage.UpdateConfig newCfg)).store = newCfg ∧
      ∀ r ∈ newCfg.routes, (lookupUp newCfg.upstreams r.upstream).isSome = true) ∧
    (∀ file cfg name uc,
      (handleMessage true file cfg (ClientMessage.UpdateUpstream name uc)).store =
        { cfg with upstreams := upsertUp cfg.upstreams name uc } ∧
      ((handleMessage true file cfg (ClientMessage.UpdateUpstream name uc)).reply).isSuccess
        = true) := by
  refine ⟨validateConfig_ok, ?_, ?_, ?_⟩
  · intro saveOk file cfg h
    cases hfile : file with
    | error e => simp [handleMessage, reloadConfig, hfile, MgmtReply.isSuccess] at h
    | ok c =>
      cases hv : validateConfig c with
      | error e => simp [handleMessage, reloadConfig, hfile, hv, MgmtReply.isSuccess] at h
      | ok v =>
        cases v
        simp only [handleMessage, reloadConfig, hfile, hv]
        exact validateConfig_ok c hv
  · intro file cfg newCfg h
    cases hf : newCfg.routes.find? (fun r => (lookupUp newCfg.upstreams r.upstream).isNone) with
    | some r => simp [handleMessage, hf, MgmtReply.isSuccess] at h
    | none =>
      constructor
      · simp [handleMessage, hf, saveStep]
      · intro r hr
        have := List.find?_eq_none.mp hf r hr
        cases ho : lookupUp newCfg.upstreams r.upstream <;> simp_all
  · intro file cfg name uc
    exact ⟨rfl, rfl⟩

theorem validation_per_writer_witness : ThreeRules cfg0 :=
  validation_per_writer.1 cfg0 (by decide)

theorem handleMessage_success_persists (saveOk : Bool) (file : Except String JanusConfig)
    (cfg : JanusConfig) (msg : ClientMessage)
    (h : ((handleMessage saveOk file cfg msg).reply).isSuccess = true) :
    (handleMessage saveOk file cfg msg).file =
      Except.ok (handleMessage saveOk file cfg msg).store := by
  cases msg with
  | UpdateConfig newCfg =>
    cases hf : newCfg.routes.find? (fun r => (lookupUp newCfg.upstreams r.upstream).isNone) with
    | some r => simp [handleMessage, hf, MgmtReply.isSuccess] at h
    | none =>
      simp only [handleMessage, hf] at h ⊢
      exact saveStep_persist _ _ _ _ h
  | AddRoute r =>
    cases h1 : (lookupUp cfg.upstreams r.upstream).isNone with
    | true => simp [handleMessage, h1, MgmtReply.isSuccess] at h
    | false =>
      cases h2 : cfg.routes.any (fun rt => rt.path == r.path) with
      | true => simp [handleMessage, h1, h2, MgmtReply.isSuccess] at h
      | false =>
        simp only [handleMessage, h1, h2, Bool.false_eq_true, if_false] at h ⊢
        exact saveStep_persist _ _ _ _ h
  | RemoveRoute p =>
    cases h1 : ((cfg.routes.filter (fun rt => !(rt.path == p))).length == cfg.routes.length) with
    | true => simp [handleMessage, h1, MgmtReply.isSuccess] at h
    | false =>
      simp only [handleMessage, h1, Bool.false_eq_true, if_false] at h ⊢
      exact saveStep_persist _ _ _ _ h
  | UpdateUpstream name uc =>
    simp only [handleMessage] at h ⊢
    exact saveStep_persist _ _ _ _ h
  | RemoveUpstream name =>
    cases h1 : cfg.routes.any (fun rt => rt.upstream == name) with
    | true => simp [handleMessage, h1, MgmtReply.isSuccess] at h
    | false =>
      cases h2 : (lookupUp cfg.upstreams name).isNone with
      | true => simp [handleMessage, h1, h2, MgmtReply.isSuccess] at h
      | false =>
        simp only [handleMessage, h1, h2, Bool.false_eq_true, if_false] at h ⊢
        exact saveStep_persist _ _ _ _ h
  | UpdateServerPort port =>
    simp only [handleMessage] at h ⊢
    exact saveStep_persist _ _ _ _ h
  | UpdateBindAddress address =>
    simp only [handleMessage] at h ⊢
    exact saveStep_persist _ _ _ _ h
  | AddStaticDir s =>
    cases h1 : cfg.static_files.any (fun st => st.path == s.path) with
    | true => simp [handleMessage, h1, MgmtReply.isSuccess] at h
    | false =>
      simp only [handleMessage, h1, Bool.false_eq_true, if_false] at h ⊢
      exact saveStep_persist _ _ _ _ h
  | RemoveStaticDir p =>
    cases h1 : ((cfg.static_files.filter (fun st => !(st.path == p))).length ==
        cfg.static_files.length) with
    | true => simp [handleMessage, h1, MgmtReply.isSuccess] at h
    | false =>
      simp only [handleMessage, h1, Bool.false_eq_true, if_false] at h ⊢
      exact saveStep_persist _ _ _ _ h
  | ReloadConfig =>
    cases hfile : file with
    | error e => simp [handleMessage, reloadConfig, hfile, MgmtReply.isSuccess] at h
    | ok c =>
      cases hv : validateConfig c with
      | error e => simp [handleMessage, reloadConfig, hfile, hv, MgmtReply.isSuccess] at h
      | ok v =>
        cases v
        simp [handleMessage, reloadConfig, hfile, hv]

theorem handleMessage_error_unchanged (file : Except String JanusConfig)
    (cfg : JanusConfig) (msg : ClientMessage)
    (h : ((handleMessage true file cfg msg).reply).isError = true) :
    (handleMessage true file cfg msg).store = cfg := by
  cases msg with
  | UpdateConfig newCfg =>
    cases hf : newCfg.routes.find? (fun r => (lookupUp newCfg.upstreams r.upstream).isNone) with
    | some r => simp [handleMessage, hf]
    | none => simp [handleMessage, hf, saveStep, MgmtReply.isError] at h
  | AddRoute r =>
    cases h1 : (lookupUp cfg.upstreams r.upstream).isNone with
    | true => simp [handleMessage, h1]
    | false =>
      cases h2 : cfg.routes.any (fun rt => rt.path == r.path) with
      | true => simp [handleMessage, h1, h2]
      | false => simp [handleMessage, h1, h2, saveStep, MgmtReply.isError] at h
  | RemoveRoute p =>
    cases h1 : ((cfg.routes.filter (fun rt => !(rt.path == p))).length == cfg.routes.length) with
    | true =>
      have heq : cfg.routes.filter (fun rt => !(rt.path == p)) = cfg.routes :=
        filterLengthEq _ _ (by simpa using h1)
      simp [handleMessage, h1, heq]
    | false => simp [handleMessage, h1, saveStep, MgmtReply.isError] at h
  | UpdateUpstream name uc => simp [handleMessage, saveStep, MgmtReply.isError] at h
  | RemoveUpstream name =>
    cases h1 : cfg.routes.any (fun rt => rt.upstream == name) with
    | true => simp [handleMessage, h1]
    | false =>
      cases h2 : (lookupUp cfg.upstreams name).isNone with
      | true =>
        have heq : removeUp cfg.upstreams name = cfg.upstreams :=
          removeUp_absent _ _ (Option.isNone_iff_eq_none.mp h2)
        simp [handleMessage, h1, h2, heq]
      | false => simp [handleMessage, h1, h2, saveStep, MgmtReply.isError] at h
  | UpdateServerPort port => simp [handleMessage, saveStep, MgmtReply.isError] at h
  | UpdateBindAddress address => simp [handleMessage, saveStep, MgmtReply.isError] at h
  | AddStaticDir s =>
    cases h1 : cfg.static_files.any (fun st => st.path == s.path) with
    | true => simp [handleMessage, h1]
    | false => simp [handleMessage, h1, saveStep, MgmtReply.isError] at h
  | RemoveStaticDir p =>
    cases h1 : ((cfg.static_files.filter (fun st => !(st.path == p))).length ==
        cfg.static_files.length) with
    | true =>
      have heq : cfg.static_files.filter (fun st => !(st.path == p)) = cfg.static_files :=
        filterLengthEq _ _ (by simpa using h1)
      simp [handleMessage, h1, heq]
    | false => simp [handleMessage, h1, saveStep, MgmtReply.isError] at h
  | ReloadConfig =>
    cases hfile : file with
    | error e => simp [handleMessage, reloadConfig, hfile]
    | ok c =>
      cases hv : validateConfig c with
      | error e => simp [handleMessage, reloadConfig, hfile, hv]
      | ok v =>
        cases v
        simp [handleMessage, reloadConfig, hfile, hv, MgmtReply.isError] at h

/-- C4 counterexample: the claim fails on the code.  With persistence failing
(`saveOk = false`), an otherwise valid `AddRoute` replies with an error while
the route has already been pushed into the live, published store — the
published configuration changed on an error reply. -/
theorem mutation_atomicity_cex :
    ((handleMessage false (Except.ok cfg0) cfg0
      (ClientMessage.AddRoute addRoute0)).reply).isError = true ∧
    (handleMessage false (Except.ok cfg0) cfg0
      (ClientMessage.AddRoute addRoute0)).store ≠ cfg0 := by decide

/-- C4 amended: every mutating command that replies success has first
persisted the new snapshot to the origin file (for the file-driven reload the
file already holds the published snapshot); and as long as persistence itself
succeeds, every error reply leaves the published configuration unchanged.
When persistence fails after the in-place store mutation, however, the
command replies with an error while the mutation stays published (see the
counterexample). -/
theorem mutation_atomicity (saveOk : Bool) (file : Except String JanusConfig)
    (cfg : JanusConfig) (msg : ClientMessage) :
    (((handleMessage saveOk file cfg msg).reply).isSuccess = true →
      (handleMessage saveOk file cfg msg).file =
        Except.ok (handleMessage saveOk file cfg msg).store) ∧
    (saveOk = true → ((handleMessage saveOk file cfg msg).reply).isError = true →
      (handleMessage saveOk file cfg msg).store = cfg) := by
  constructor
  · exact handleMessage_success_persists saveOk file cfg msg
  · intro hs h
    subst hs
    exact handleMessage_error_unchanged file cfg msg h

theorem mutation_atomicity_witness :
    (handleMessage true (Except.ok cfg0) cfg0 (ClientMessage.AddRoute addRoute0)).file =
      Except.ok (handleMessage true (Except.ok cfg0) cfg0
        (ClientMessage.AddRoute addRoute0)).store :=
  (mutation_atomicity true (Except.ok cfg0) cfg0 (ClientMessage.AddRoute addRoute0)).1
    (by decide)

/-- C9: any three file-change events that all fall inside one 500ms debounce
window trigger at most one reload; every reload stems from an event at least
500ms after the last accepted one and runs 100ms (the settle delay) after its
accepting event; and a reload publishes the file's configuration only after
it parsed and passed validation. -/
theorem debounce_single_reload (last t1 t2 t3 : Nat)
    (h12 : t1 ≤ t2) (h23 : t2 ≤ t3) (hw : t3 < t1 + 500) :
    (processEvents last [t1, t2, t3]).length ≤ 1 ∧
    (∀ r ∈ processEvents last [t1, t2, t3],
      ∃ t, (t = t1 ∨ t = t2 ∨ t = t3) ∧ r = t + 100 ∧ 500 ≤ t - last) ∧
    (∀ file cfg, (reloadConfig file cfg).2 = Except.ok () →
      ∃ c, file = Except.ok c ∧ validateConfig c = Except.ok () ∧
        (reloadConfig file cfg).1 = c) := by
  have hcases : processEvents last [t1, t2, t3] = [] ∨
      (∃ t, (t = t1 ∨ t = t2 ∨ t = t3) ∧ 500 ≤ t - last ∧
        processEvents last [t1, t2, t3] = [t + 100]) := by
    by_cases e1 : t1 - last < 500
    · by_cases e2 : t2 - last < 500
      · by_cases e3 : t3 - last < 500
        · left
          simp [processEvents, e1, e2, e3]
        · right
          exact ⟨t3, Or.inr (Or.inr rfl), by omega, by simp [processEvents, e1, e2, e3]⟩
      · right
        refine ⟨t2, Or.inr (Or.inl rfl), by omega, ?_⟩
        have e3 : t3 - t2 < 500 := by omega
        simp [processEvents, e1, e2, e3]
    · right
      refine ⟨t1, Or.inl rfl, by omega, ?_⟩
      have e2 : t2 - t1 < 500 := by omega
      have e3 : t3 - t1 < 500 := by omega
      simp [processEvents, e1, e2, e3]
  refine ⟨?_, ?_, ?_⟩
  · rcases hcases with h | ⟨t, _, _, h⟩ <;> simp [h]
  · intro r hr
    rcases hcases with h | ⟨t, ht, hd, h⟩
    · rw [h] at hr; exact absurd hr (by simp)
    · rw [h] at hr
      simp only [List.mem_singleton] at hr
      exact ⟨t, ht, hr, hd⟩
  · intro file cfg h
    cases hfile : file with
    | error e => rw [hfile] at h; simp [reloadConfig] at h
    | ok c =>
      rw [hfile] at h
      cases hv : validateConfig c with
      | error e => simp [reloadConfig, hv] at h
      | ok v =>
        cases v
        exact ⟨c, rfl, hv, by simp [reloadConfig, hv]⟩

theorem debounce_single_reload_witness :
    (processEvents 0 [600, 700, 800]).length ≤ 1 ∧
    (∀ r ∈ processEvents 0 [600, 700, 800],
      ∃ t, (t = 600 ∨ t = 700 ∨ t = 800) ∧ r = t + 100 ∧ 500 ≤ t - 0) ∧
    (∀ file cfg, (reloadConfig file cfg).2 = Except.ok () →
      ∃ c, file = Except.ok c ∧ validateConfig c = Except.ok () ∧
        (reloadConfig file cfg).1 = c) :=
  debounce_single_reload 0 600 700 800 (by decide) (by decide) (by decide)

end Janus
